import Mathlib

/-!
Verification of the SomniaAgent SDK core (packages/core/src/SomniaAgent.ts,
types.ts, networks.ts) and the testing harness
(packages/testing/src/AgentSimulator.ts) against its natural-language
specification.

JavaScript numbers that carry rates, averages and gas amounts are modelled
as exact rationals (ℚ); counters and timestamps are naturals. Ambient
effects (Date.now(), Math.random(), the blockchain collaborator's response)
become explicit parameters. Fallible operations return Except. Event
emission through the agent's internal EventEmitter is modelled as an
append-only log of the emitted events; the dispatch loop of the event
emitter itself is modelled separately for the handler-isolation property,
and the reference semantics of the JavaScript spread copy in getState is
modelled with an explicit heap.
-/

namespace SomniaSDK

/-- Agent status, from `AgentStatus` in types.ts:
    `'idle' | 'running' | 'paused' | 'error'`. -/
inductive AgentStatus where
  | idle
  | running
  | paused
  | error
  deriving DecidableEq, Repr

/-- Agent type classification, from `AgentType` in types.ts. -/
inductive AgentType where
  | defi
  | gaming
  | governance
  | custom
  deriving DecidableEq, Repr

/-- Autonomy level, from `AutonomyLevel` in types.ts. -/
inductive AutonomyLevel where
  | low
  | medium
  | high
  deriving DecidableEq, Repr

/-- A JavaScript value stored in a free-form `Record<string, any>` bag
    (state data, event data, action params): the repository only ever puts
    numbers and strings there. -/
inductive JSValue where
  | num (q : ℚ)
  | str (s : String)
  deriving DecidableEq, Repr

/-- Agent metrics, from `AgentMetrics` in types.ts. -/
structure AgentMetrics where
  totalActions : ℕ
  successRate : ℚ
  avgGasUsed : ℚ
  uptime : ℕ
  lastActionAt : Option ℕ := none
  deriving DecidableEq, Repr

/-- An action, from `Action` in types.ts. -/
structure Action where
  type : String
  params : List (String × JSValue)
  gasLimit : Option ℕ := none
  gasPrice : Option String := none
  timestamp : Option ℕ := none
  deriving DecidableEq, Repr

/-- Agent state, from `AgentState` in types.ts. -/
structure AgentState where
  status : AgentStatus
  lastAction : Option Action
  metrics : AgentMetrics
  data : List (String × JSValue)
  contractAddress : Option String := none
  deriving DecidableEq, Repr

/-- Network configuration, from `Network` in types.ts. -/
structure Network where
  name : String
  chainId : ℕ
  rpcUrl : String
  explorerUrl : Option String := none
  deriving DecidableEq, Repr

/-- Somnia Shannon Testnet configuration, from networks.ts. -/
def SomniaTestnet : Network :=
  { name := "Somnia Shannon Testnet"
    chainId := 50312
    rpcUrl := "https://50312.rpc.thirdweb.com"
    explorerUrl := some ("https://testnet.somnia.network") }

/-- Somnia Mainnet configuration, from networks.ts. -/
def SomniaMainnet : Network :=
  { name := "Somnia Mainnet"
    chainId := 5031
    rpcUrl := "https://api.infra.mainnet.somnia.network"
    explorerUrl := some ("https://somnia.network") }

/-- The `Networks` record from networks.ts: `testnet` and `mainnet`. -/
def Networks (name : String) : Option Network :=
  if name = "testnet" then some SomniaTestnet
  else if name = "mainnet" then some SomniaMainnet
  else none

/-- Agent configuration, from `AgentConfig` in types.ts; the `network` field
    is either a literal `Network` descriptor or a network name. -/
structure AgentConfig where
  name : String
  type : AgentType
  autonomy : Option AutonomyLevel := none
  triggers : Option (List String) := none
  network : Option (Network ⊕ String) := none
  aiModel : Option String := none
  rpcUrl : Option String := none
  privateKey : Option String := none
  contractAddress : Option String := none
  deriving DecidableEq, Repr

/-- The error hierarchy of types.ts (ConfigurationError / ExecutionError /
    DeploymentError extending AgentError), as a tagged union. -/
inductive AgentError where
  | configurationError (message : String)
  | executionError (message : String)
  | deploymentError (message : String)
  deriving DecidableEq, Repr

/-- The `AgentEvents` enum values from types.ts. -/
def AgentEvents.INITIALIZED : String := "agent:initialized"

def AgentEvents.STARTED : String := "agent:started"

def AgentEvents.STOPPED : String := "agent:stopped"

def AgentEvents.PAUSED : String := "agent:paused"

def AgentEvents.RESUMED : String := "agent:resumed"

def AgentEvents.ERROR : String := "agent:error"

def AgentEvents.ACTION_EXECUTED : String := "agent:action_executed"

def AgentEvents.STATE_CHANGED : String := "agent:state_changed"

def AgentEvents.DEPLOYED : String := "agent:deployed"

/-- A mined transaction receipt, the part of the collaborator's response the
    agent reads (`receipt.hash`, `receipt.gasUsed`). -/
structure TxReceipt where
  hash : String
  gasUsed : ℕ
  deriving DecidableEq, Repr

/-- Execution result, from `ExecutionResult` in types.ts; the `{} as any`
    receipt of the failure path is modelled as `none`. -/
structure ExecutionResult where
  success : Bool
  txHash : String
  receipt : Option TxReceipt := none
  gasUsed : ℕ
  errorMessage : Option String := none
  timestamp : ℕ
  deriving DecidableEq, Repr

/-- Deployment result, from `DeploymentResult` in types.ts. -/
structure DeploymentResult where
  contractAddress : String
  txHash : String
  blockNumber : ℕ
  gasUsed : ℕ
  network : Network
  timestamp : ℕ
  deriving DecidableEq, Repr

/-- Payloads the agent passes as the `data` of an emitted event, one
    constructor per call site of `this.emit` in SomniaAgent.ts. -/
inductive EventData where
  | initializedData (name : String) (type : AgentType)
  | startedData (timestamp : ℕ)
  | stoppedData (uptime : ℕ)
  | emptyData
  | actionExecutedData (action : Action) (result : ExecutionResult)
  | errorData (action : Action) (message : String)
  | stateChangedData (oldState newState : AgentState)
  | deployedData (result : DeploymentResult)
  deriving DecidableEq, Repr

/-- The uniform event envelope, from `AgentEvent` in types.ts. -/
structure AgentEvent where
  type : String
  timestamp : ℕ
  data : EventData
  source : String
  deriving DecidableEq, Repr

/-- The SomniaAgent instance fields (SomniaAgent.ts lines 29-37): config,
    state, the optional contract handle and signer, the start timestamp, and
    the internal event emitter modelled as the ordered log of emitted
    events. The contract handle is identified by its address. -/
structure SomniaAgent where
  config : AgentConfig
  state : AgentState
  contract : Option String := none
  signer : Option String := none
  startTime : Option ℕ := none
  emitted : List AgentEvent := []
  deriving DecidableEq, Repr

/-- The metrics the constructor installs (SomniaAgent.ts lines 51-56):
    totalActions 0, successRate 1, avgGasUsed 0, uptime 0. -/
def initialMetrics : AgentMetrics :=
  { totalActions := 0
    successRate := 1
    avgGasUsed := 0
    uptime := 0 }

/-- The state the constructor installs (SomniaAgent.ts lines 48-58). -/
def initialState : AgentState :=
  { status := .idle
    lastAction := none
    metrics := initialMetrics
    data := [] }

/-- Source `updateMetrics` (SomniaAgent.ts lines 391-405), over exact rationals:
    `totalActions = n+1`,
    `successfulActions = success ? n*r + 1 : n*r`,
    `successRate = successfulActions / (n+1)`,
    `avgGasUsed = (g*n + gasUsed) / (n+1)`,
    `lastActionAt = Date.now()` (the `now` parameter). -/
def updateMetrics (m : AgentMetrics) (success : Bool) (gasUsed : ℚ) (now : ℕ) :
    AgentMetrics :=
  let totalActions := m.totalActions + 1
  let successfulActions : ℚ :=
    if success then (m.totalActions : ℚ) * m.successRate + 1
    else (m.totalActions : ℚ) * m.successRate
  { totalActions := totalActions
    successRate := successfulActions / (totalActions : ℚ)
    avgGasUsed := (m.avgGasUsed * (m.totalActions : ℚ) + gasUsed) / (totalActions : ℚ)
    uptime := m.uptime
    lastActionAt := some now }

/-- Feed a sequence of (success, gasUsed) observations one-by-one into
    `updateMetrics`, starting from metrics `m`. -/
def runMetricsFrom (m : AgentMetrics) (obs : List (Bool × ℚ)) : AgentMetrics :=
  obs.foldl (fun acc o => updateMetrics acc o.1 o.2 0) m

/-- Feed a sequence of observations into the aggregator starting from the
    constructor's initial metrics. -/
def runMetrics (obs : List (Bool × ℚ)) : AgentMetrics :=
  runMetricsFrom initialMetrics obs

/-- Number of successful observations in a sequence. -/
def countSuccesses (obs : List (Bool × ℚ)) : ℕ :=
  (obs.filter (fun o => o.1)).length

/-- Total gas used over a sequence of observations. -/
def sumGas (obs : List (Bool × ℚ)) : ℚ :=
  (obs.map (fun o => o.2)).sum

/-- The private `emit` helper (SomniaAgent.ts lines 380-389): wraps the
    payload in an `AgentEvent` envelope stamped with `Date.now()` and the
    agent's name, and hands it to the internal event emitter (modelled as
    appending to the log). -/
def emitEvent (a : SomniaAgent) (type : String) (d : EventData) (now : ℕ) :
    SomniaAgent :=
  { a with emitted := a.emitted ++
      [{ type := type, timestamp := now, data := d, source := a.config.name }] }

/-- Source `start` (SomniaAgent.ts lines 98-114): no-op when already running;
    otherwise sets status to running, records the start timestamp and emits
    `agent:started`. (`subscribeToEvents` is a console.log stub with no
    effect on agent state.) -/
def start (a : SomniaAgent) (now : ℕ) : SomniaAgent :=
  if a.state.status = .running then a
  else
    let a1 := { a with state := { a.state with status := .running }
                       startTime := some now }
    emitEvent a1 AgentEvents.STARTED (.startedData now) now

/-- Source `stop` (SomniaAgent.ts lines 119-134): no-op unless running; otherwise
    sets status to idle, accumulates uptime when a start timestamp exists,
    and emits `agent:stopped` with the accumulated uptime. -/
def stop (a : SomniaAgent) (now : ℕ) : SomniaAgent :=
  if a.state.status ≠ .running then a
  else
    let metrics :=
      match a.startTime with
      | some t0 => { a.state.metrics with uptime := a.state.metrics.uptime + (now - t0) }
      | none => a.state.metrics
    let a1 := { a with state := { a.state with status := .idle, metrics := metrics } }
    emitEvent a1 AgentEvents.STOPPED (.stoppedData metrics.uptime) now

/-- Source `pause` (SomniaAgent.ts lines 139-146): no-op unless running; otherwise
    sets status to paused and emits `agent:paused`. -/
def pause (a : SomniaAgent) (now : ℕ) : SomniaAgent :=
  if a.state.status ≠ .running then a
  else
    let a1 := { a with state := { a.state with status := .paused } }
    emitEvent a1 AgentEvents.PAUSED .emptyData now

/-- Source `resume` (SomniaAgent.ts lines 151-158): no-op unless paused; otherwise
    sets status to running and emits `agent:resumed`. -/
def resume (a : SomniaAgent) (now : ℕ) : SomniaAgent :=
  if a.state.status ≠ .paused then a
  else
    let a1 := { a with state := { a.state with status := .running } }
    emitEvent a1 AgentEvents.RESUMED .emptyData now

/-- Source `execute` (SomniaAgent.ts lines 164-224). The blockchain collaborator's
    response (submission plus confirmation) is the `outcome` parameter: a
    receipt on success, the thrown error's message on failure. Without both
    a contract handle and a signer it throws an ExecutionError before
    touching any state. On a confirmed receipt it records a success
    observation, stores `lastAction` and emits `agent:action_executed`; on a
    failed submission it records a failure observation with gasUsed 0, emits
    `agent:error` and re-throws as an ExecutionError wrapping the cause. -/
def execute (a : SomniaAgent) (action : Action) (outcome : Except String TxReceipt)
    (now : ℕ) : SomniaAgent × Except AgentError ExecutionResult :=
  if a.contract = none ∨ a.signer = none then
    (a, .error (.executionError ("Agent not properly initialized or deployed")))
  else
    match outcome with
    | .ok receipt =>
      let a1 := { a with state :=
        { a.state with
            metrics := updateMetrics a.state.metrics true (receipt.gasUsed : ℚ) now } }
      let result : ExecutionResult :=
        { success := true
          txHash := receipt.hash
          receipt := some receipt
          gasUsed := receipt.gasUsed
          timestamp := now }
      let a2 := { a1 with state := { a1.state with lastAction := some action } }
      let a3 := emitEvent a2 AgentEvents.ACTION_EXECUTED
        (.actionExecutedData action result) now
      (a3, .ok result)
    | .error msg =>
      let a1 := { a with state :=
        { a.state with metrics := updateMetrics a.state.metrics false 0 now } }
      let a2 := emitEvent a1 AgentEvents.ERROR (.errorData action msg) now
      (a2, .error (.executionError ("Action execution failed: " ++ msg)))

/-- The value of `getState` (SomniaAgent.ts lines 243-245) as a value-level
    snapshot; the reference semantics of its `{ ...this.state }` shallow
    copy is modelled below with `shallowCopyState` over an explicit heap. -/
def getState (a : SomniaAgent) : AgentState := a.state

/-- A TypeScript `Partial` of AgentState: each top-level key is either
    absent or carries a replacement value. -/
structure AgentStatePatch where
  status : Option AgentStatus := none
  lastAction : Option (Option Action) := none
  metrics : Option AgentMetrics := none
  data : Option (List (String × JSValue)) := none
  contractAddress : Option (Option String) := none
  deriving DecidableEq, Repr

/-- The JavaScript spread merge `{ ...this.state, ...partialState }`: every
    top-level key present in the patch replaces the previous value of that
    key wholesale. -/
def mergeState (s : AgentState) (p : AgentStatePatch) : AgentState :=
  { status := p.status.getD s.status
    lastAction := p.lastAction.getD s.lastAction
    metrics := p.metrics.getD s.metrics
    data := p.data.getD s.data
    contractAddress := p.contractAddress.getD s.contractAddress }

/-- Source `setState` (SomniaAgent.ts lines 250-258): replaces the state with the
    spread merge and emits `agent:state_changed` with old and new
    snapshots. -/
def setState (a : SomniaAgent) (p : AgentStatePatch) (now : ℕ) : SomniaAgent :=
  let oldState := a.state
  let newState := mergeState a.state p
  emitEvent { a with state := newState } AgentEvents.STATE_CHANGED
    (.stateChangedData oldState newState) now

/-- Source `getNetwork` (SomniaAgent.ts lines 350-359): resolve a network name
    through `Networks` (unknown names throw a ConfigurationError), pass a
    literal descriptor through, default to the testnet. -/
def getNetwork (config : AgentConfig) : Except AgentError Network :=
  match config.network with
  | some (.inr name) =>
    match Networks name with
    | some network => .ok network
    | none => .error (.configurationError ("Unknown network: " ++ name))
  | some (.inl network) => .ok network
  | none => .ok SomniaTestnet

/-- Source `deploy` (SomniaAgent.ts lines 267-303): requires a signer; the mock
    deployment produces a freshly generated address (`mockAddress`, the
    value of `ethers.Wallet.createRandom().address`), a zero transaction
    hash, stores the address on both config and state, emits
    `agent:deployed` and returns the result. A throw inside the try block
    (only `getNetwork` can throw there) is re-wrapped as a DeploymentError.
    The contract handle is never created. -/
def deploy (a : SomniaAgent) (mockAddress : String) (now : ℕ) :
    SomniaAgent × Except AgentError DeploymentResult :=
  match a.signer with
  | none => (a, .error (.deploymentError ("No signer configured. Provide private key in config.")))
  | some _ =>
    match getNetwork a.config with
    | .error e =>
      (a, .error (.deploymentError ("Deployment failed: " ++
        match e with
        | .configurationError msg => msg
        | .executionError msg => msg
        | .deploymentError msg => msg)))
    | .ok network =>
      let result : DeploymentResult :=
        { contractAddress := mockAddress
          txHash := "0x" ++ String.mk (List.replicate 64 '0')
          blockNumber := 0
          gasUsed := 0
          network := network
          timestamp := now }
      let a1 := { a with
        config := { a.config with contractAddress := some mockAddress }
        state := { a.state with contractAddress := some mockAddress } }
      let a2 := emitEvent a1 AgentEvents.DEPLOYED (.deployedData result) now
      (a2, .ok result)

/-- A listener registered with `onEvent` (an `EventHandler` of types.ts);
    `Except.error` models a synchronous throw. -/
abbrev Listener := AgentEvent → Except String Unit

/-- The dispatch loop of the eventemitter3 `emit` the agent delegates to
    (SomniaAgent.ts line 388; eventemitter3 is the `eventEmitter` field's
    class): the listeners registered for the event run in registration
    order and the loop has no exception handling, so a listener that throws
    synchronously aborts the loop and the exception propagates. Returns,
    aligned with the listener list, whether each listener was invoked,
    together with the propagated error if any. -/
def emitDispatch : List Listener → AgentEvent → List Bool × Option String
  | [], _ => ([], none)
  | l :: rest, ev =>
    match l ev with
    | .ok _ =>
      let r := emitDispatch rest ev
      (true :: r.1, r.2)
    | .error e => (true :: rest.map (fun _ => false), some e)

/-- JavaScript object semantics for `getState`'s `return { ...this.state }`:
    the nested metrics and data objects live on a heap and the state object
    holds references to them. -/
structure AgentStateObj where
  status : AgentStatus
  lastAction : Option Action
  metricsRef : ℕ
  dataRef : ℕ
  contractAddress : Option String := none
  deriving DecidableEq, Repr

/-- The heap holding the nested objects of agent states. -/
structure JSHeap where
  metricsCells : ℕ → AgentMetrics
  dataCells : ℕ → List (String × JSValue)

/-- The spread copy `{ ...this.state }` of getState: a fresh top-level
    object whose fields are copied by value — for the nested metrics and
    data objects that value is the reference, which is therefore shared
    with the agent's own state object. -/
def shallowCopyState (s : AgentStateObj) : AgentStateObj :=
  { status := s.status
    lastAction := s.lastAction
    metricsRef := s.metricsRef
    dataRef := s.dataRef
    contractAddress := s.contractAddress }

/-- Dereference a metrics object. -/
def readMetrics (h : JSHeap) (r : ℕ) : AgentMetrics := h.metricsCells r

/-- Mutate the metrics object stored at reference `r`. -/
def writeMetrics (h : JSHeap) (r : ℕ) (v : AgentMetrics) : JSHeap :=
  { h with metricsCells := fun i => if i = r then v else h.metricsCells i }

/-- Dereference a data bag. -/
def readData (h : JSHeap) (r : ℕ) : List (String × JSValue) := h.dataCells r

/-- Mutate the data bag stored at reference `r`. -/
def writeData (h : JSHeap) (r : ℕ) (v : List (String × JSValue)) : JSHeap :=
  { h with dataCells := fun i => if i = r then v else h.dataCells i }

/-- A scripted simulation event, from `SimulationEvent` in
    AgentSimulator.ts. -/
structure SimulationEvent where
  type : String
  data : List (String × JSValue)
  timestamp : ℕ
  deriving DecidableEq, Repr

/-- The aggregate outcome of a run, from `SimulationResult` in
    AgentSimulator.ts. -/
structure SimulationResult where
  totalEvents : ℕ
  totalActions : ℕ
  successfulActions : ℕ
  failedActions : ℕ
  successRate : ℚ
  avgResponseTime : ℚ
  avgGasUsed : ℚ
  duration : ℕ
  events : List SimulationEvent
  actions : List Action
  deriving DecidableEq, Repr

/-- The `normal_trading` scenario (AgentSimulator.ts lines 157-173); `now`
    is the `Date.now()` base of the relative timestamps. -/
def normalTradingEvents (now : ℕ) : List SimulationEvent :=
  [ { type := "price_change"
      data := [("price", .num 1000), ("change", .num 0.01), ("volume", .num 30000)]
      timestamp := now },
    { type := "price_change"
      data := [("price", .num 1010), ("change", .num (-0.005)), ("volume", .num 28000)]
      timestamp := now + 5000 },
    { type := "price_change"
      data := [("price", .num 1005), ("change", .num 0.008), ("volume", .num 32000)]
      timestamp := now + 10000 } ]

/-- The `market_volatility` scenario (AgentSimulator.ts lines 174-195). -/
def marketVolatilityEvents (now : ℕ) : List SimulationEvent :=
  [ { type := "price_change"
      data := [("price", .num 1000), ("change", .num 0.05), ("volume", .num 50000)]
      timestamp := now },
    { type := "price_change"
      data := [("price", .num 1050), ("change", .num (-0.08)), ("volume", .num 75000)]
      timestamp := now + 3000 },
    { type := "price_change"
      data := [("price", .num 966), ("change", .num 0.12), ("volume", .num 100000)]
      timestamp := now + 6000 },
    { type := "price_change"
      data := [("price", .num 1082), ("change", .num (-0.05)), ("volume", .num 60000)]
      timestamp := now + 9000 } ]

/-- The `liquidity_crisis` scenario (AgentSimulator.ts lines 196-212). -/
def liquidityCrisisEvents (now : ℕ) : List SimulationEvent :=
  [ { type := "liquidity_event"
      data := [("pool", .str ("ETH-USDC")), ("liquidity", .num 1000000), ("change", .num (-0.3))]
      timestamp := now },
    { type := "price_change"
      data := [("price", .num 1000), ("change", .num (-0.15)), ("volume", .num 20000)]
      timestamp := now + 2000 },
    { type := "liquidity_event"
      data := [("pool", .str ("ETH-USDC")), ("liquidity", .num 700000), ("change", .num (-0.2))]
      timestamp := now + 4000 } ]

/-- The `bull_run` scenario (AgentSimulator.ts lines 213-234). -/
def bullRunEvents (now : ℕ) : List SimulationEvent :=
  [ { type := "price_change"
      data := [("price", .num 1000), ("change", .num 0.05), ("volume", .num 50000)]
      timestamp := now },
    { type := "price_change"
      data := [("price", .num 1050), ("change", .num 0.08), ("volume", .num 75000)]
      timestamp := now + 4000 },
    { type := "price_change"
      data := [("price", .num 1134), ("change", .num 0.10), ("volume", .num 100000)]
      timestamp := now + 8000 },
    { type := "price_change"
      data := [("price", .num 1247), ("change", .num 0.07), ("volume", .num 90000)]
      timestamp := now + 12000 } ]

/-- Source `getScenarioEvents` (AgentSimulator.ts lines 155-238): the scenario
    catalog with `scenarios[scenario] || scenarios.normal_trading` fallback
    for unknown names. -/
def getScenarioEvents (scenario : String) (now : ℕ) : List SimulationEvent :=
  let scenarios : List (String × List SimulationEvent) :=
    [("normal_trading", normalTradingEvents now),
     ("market_volatility", marketVolatilityEvents now),
     ("liquidity_crisis", liquidityCrisisEvents now),
     ("bull_run", bullRunEvents now)]
  match scenarios.lookup scenario with
  | some evs => evs
  | none => normalTradingEvents now

/-- Source `event.data.price || 1000` of AgentSimulator.ts line 138: a falsy price
    (absent, zero, or the empty string) is replaced by 1000. -/
def priceOrDefault (d : List (String × JSValue)) : JSValue :=
  match d.lookup ("price") with
  | some (.num p) => if p = 0 then .num 1000 else .num p
  | some (.str s) => if s = "" then .num 1000 else .str s
  | none => .num 1000

/-- Source `simulateAgentAction` (AgentSimulator.ts lines 127-150): the
    `Math.random()` draws are the explicit `success` (the 90% coin) and
    `amount` parameters; exactly one action is appended per event, whatever
    the draw. -/
def simulateAgentAction (ev : SimulationEvent) (success : Bool) (amount : ℚ)
    (now : ℕ) : Action :=
  { type := if success then ("buy") else ("sell")
    params := [("amount", .num amount), ("price", priceOrDefault ev.data)]
    gasLimit := some 50000
    timestamp := some now }

/-- The event loop of `run` (AgentSimulator.ts lines 76-81) on a run that is
    never cancelled: each scenario event is appended to the event log and
    `simulateAgentAction` appends one synthetic action; `rand` supplies the
    per-step random draws. -/
def runEventLoop : List SimulationEvent → (ℕ → Bool × ℚ) → ℕ →
    List SimulationEvent × List Action
  | [], _, _ => ([], [])
  | ev :: rest, rand, i =>
    let draw := rand i
    let action := simulateAgentAction ev draw.1 draw.2 ev.timestamp
    let r := runEventLoop rest rand (i + 1)
    (ev :: r.1, action :: r.2)

/-- Source `calculateResults` (AgentSimulator.ts lines 243-264).
    `Math.floor(totalActions * 0.9)` equals `totalActions * 9 / 10` in
    natural division: the double nearest to 0.9 exceeds 9/10 by about
    2.2e-17, far less than half an ulp of the product, so the rounded
    product never crosses an integer. `avgResponseTime` and `avgGasUsed`
    are the random in-range report values, passed in explicitly. -/
def calculateResults (events : List SimulationEvent) (actions : List Action)
    (duration : ℕ) (avgResponseTime avgGasUsed : ℚ) : SimulationResult :=
  let totalEvents := events.length
  let totalActions := actions.length
  let successfulActions := totalActions * 9 / 10
  let failedActions := totalActions - successfulActions
  let successRate : ℚ :=
    if totalActions > 0 then (successfulActions : ℚ) / (totalActions : ℚ) else 0
  { totalEvents := totalEvents
    totalActions := totalActions
    successfulActions := successfulActions
    failedActions := failedActions
    successRate := successRate
    avgResponseTime := avgResponseTime
    avgGasUsed := avgGasUsed
    duration := duration
    events := events
    actions := actions }

/-- A full (never stopped) `run` (AgentSimulator.ts lines 60-94): resolve
    the scenario, replay every event, and compute the results. -/
def runSimulation (scenario : String) (rand : ℕ → Bool × ℚ) (now duration : ℕ)
    (avgResponseTime avgGasUsed : ℚ) : SimulationResult :=
  let scenarioEvents := getScenarioEvents scenario now
  let logs := runEventLoop scenarioEvents rand 0
  calculateResults logs.1 logs.2 duration avgResponseTime avgGasUsed

/-- The spec's example observation sequence
    `[(true,100),(false,0),(true,200)]`. -/
def obs3 : List (Bool × ℚ) := [(true, 100), (false, 0), (true, 200)]

/-- A minimal valid configuration (name and type present). -/
def demoConfig : AgentConfig := { name := "agent", type := .defi }

/-- A freshly constructed agent: initial state, no contract, no signer. -/
def bareAgent : SomniaAgent := { config := demoConfig, state := initialState }

/-- An agent whose status is `error`. -/
def errAgent : SomniaAgent :=
  { config := demoConfig, state := { initialState with status := .error } }

/-- An agent with both a contract handle and a signer. -/
def readyAgent : SomniaAgent :=
  { config := demoConfig
    state := initialState
    contract := some ("0xc0ffee")
    signer := some ("0xdeadbeef") }

/-- An agent with a signer but no contract handle. -/
def signerOnlyAgent : SomniaAgent :=
  { config := demoConfig, state := initialState, signer := some ("0xdeadbeef") }

/-- A concrete action. -/
def demoAction : Action := { type := "buy", params := [] }

/-- A concrete event envelope. -/
def demoEvent : AgentEvent :=
  { type := "price_change", timestamp := 0, data := .emptyData, source := "agent" }

/-- A listener that throws synchronously. -/
def throwingListener : Listener := fun _ => .error ("boom")

/-- A listener that returns normally. -/
def benignListener : Listener := fun _ => .ok ()

/-- A concrete heap: every metrics cell holds the initial metrics, every
    data cell is empty. -/
def demoHeap : JSHeap :=
  { metricsCells := fun _ => initialMetrics, dataCells := fun _ => [] }

/-- A concrete agent-state object pointing at cell 0 of each store. -/
def demoStateObj : AgentStateObj :=
  { status := .idle, lastAction := none, metricsRef := 0, dataRef := 0 }

/-- A metrics value distinct from the initial one. -/
def mutatedMetrics : AgentMetrics :=
  { totalActions := 99, successRate := 0, avgGasUsed := 0, uptime := 0 }

end SomniaSDK

namespace SomniaSDK

lemma runMetricsFrom_cons (m : AgentMetrics) (o : Bool × ℚ) (obs : List (Bool × ℚ)) :
    runMetricsFrom m (o :: obs) = runMetricsFrom (updateMetrics m o.1 o.2 0) obs := rfl

lemma countSuccesses_cons (s : Bool) (g : ℚ) (obs : List (Bool × ℚ)) :
    countSuccesses ((s, g) :: obs) = (if s then 1 else 0) + countSuccesses obs := by
  cases s with
  | true => simp [countSuccesses, List.filter_cons]; omega
  | false => simp [countSuccesses, List.filter_cons]

lemma runMetricsFrom_totalActions (obs : List (Bool × ℚ)) :
    ∀ m : AgentMetrics,
      (runMetricsFrom m obs).totalActions = m.totalActions + obs.length := by
  induction obs with
  | nil => intro m; simp [runMetricsFrom]
  | cons o obs ih =>
    intro m
    rw [runMetricsFrom_cons, ih]
    simp [updateMetrics]
    omega

lemma runMetricsFrom_successes (obs : List (Bool × ℚ)) :
    ∀ m : AgentMetrics,
      ((runMetricsFrom m obs).totalActions : ℚ) * (runMetricsFrom m obs).successRate
        = (m.totalActions : ℚ) * m.successRate + (countSuccesses obs : ℚ) := by
  induction obs with
  | nil => intro m; simp [runMetricsFrom, countSuccesses]
  | cons o obs ih =>
    intro m
    rw [runMetricsFrom_cons, ih]
    rcases o with ⟨s, g⟩
    rw [countSuccesses_cons]
    have hne : ((m.totalActions : ℚ) + 1) ≠ 0 := by positivity
    cases s with
    | true =>
      simp only [updateMetrics, if_true, if_pos]
      push_cast
      field_simp
      ring
    | false =>
      simp only [updateMetrics, if_false, Bool.false_eq_true]
      push_cast
      field_simp

lemma runMetricsFrom_gas (obs : List (Bool × ℚ)) :
    ∀ m : AgentMetrics,
      (runMetricsFrom m obs).avgGasUsed * ((runMetricsFrom m obs).totalActions : ℚ)
        = m.avgGasUsed * (m.totalActions : ℚ) + sumGas obs := by
  induction obs with
  | nil => intro m; simp [runMetricsFrom, sumGas]
  | cons o obs ih =>
    intro m
    rw [runMetricsFrom_cons, ih]
    have hne : ((m.totalActions + 1 : ℕ) : ℚ) ≠ 0 := by
      exact_mod_cast Nat.succ_ne_zero m.totalActions
    rcases o with ⟨s, g⟩
    simp only [updateMetrics, sumGas, List.map_cons, List.sum_cons]
    field_simp
    ring

/-- C1: Metrics equivalence — feeding any nonempty finite sequence of
    (success, gasUsed) observations one-by-one through `updateMetrics`,
    starting from the constructed initial metrics (totalActions 0,
    successRate 1, avgGasUsed 0), yields totalActions equal to the length
    of the sequence, successRate equal to the count of successes divided by
    the length, and avgGasUsed equal to the arithmetic mean of the gas
    values, exactly over exact arithmetic. -/
theorem metrics_equivalence (obs : List (Bool × ℚ)) (h : obs ≠ []) :
    (runMetrics obs).totalActions = obs.length ∧
    (runMetrics obs).successRate = (countSuccesses obs : ℚ) / (obs.length : ℚ) ∧
    (runMetrics obs).avgGasUsed = sumGas obs / (obs.length : ℚ) := by
  have hlen : (runMetrics obs).totalActions = obs.length := by
    have := runMetricsFrom_totalActions obs initialMetrics
    simpa [runMetrics, initialMetrics] using this
  have hlen0 : ((obs.length : ℚ)) ≠ 0 := by
    have hne : obs.length ≠ 0 := by
      cases obs with
      | nil => exact absurd rfl h
      | cons a l => simp
    exact_mod_cast hne
  refine ⟨hlen, ?_, ?_⟩
  · have hs := runMetricsFrom_successes obs initialMetrics
    rw [show runMetricsFrom initialMetrics obs = runMetrics obs from rfl, hlen] at hs
    simp [initialMetrics] at hs
    rw [eq_div_iff hlen0, mul_comm]
    exact hs
  · have hg := runMetricsFrom_gas obs initialMetrics
    rw [show runMetricsFrom initialMetrics obs = runMetrics obs from rfl, hlen] at hg
    simp [initialMetrics] at hg
    rw [eq_div_iff hlen0]
    exact hg

/-- Witness for C1 at the spec's example sequence
    [(true,100),(false,0),(true,200)]: successRate 2/3 and avgGasUsed 100. -/
theorem metrics_equivalence_witness :
    (obs3 ≠ [] ∧
      ((runMetrics obs3).totalActions = obs3.length ∧
       (runMetrics obs3).successRate = (countSuccesses obs3 : ℚ) / (obs3.length : ℚ) ∧
       (runMetrics obs3).avgGasUsed = sumGas obs3 / (obs3.length : ℚ))) ∧
    (runMetrics obs3).totalActions = 3 ∧
    (runMetrics obs3).successRate = 2 / 3 ∧
    (runMetrics obs3).avgGasUsed = 100 :=
  ⟨⟨by decide, metrics_equivalence obs3 (by decide)⟩,
    by norm_num [runMetrics, runMetricsFrom, updateMetrics, initialMetrics, obs3],
    by norm_num [runMetrics, runMetricsFrom, updateMetrics, initialMetrics, obs3],
    by norm_num [runMetrics, runMetricsFrom, updateMetrics, initialMetrics, obs3]⟩

lemma execute_missing_requirement (a : SomniaAgent) (action : Action)
    (outcome : Except String TxReceipt) (now : ℕ)
    (h : a.contract = none ∨ a.signer = none) :
    (execute a action outcome now).1 = a ∧
    (execute a action outcome now).2
      = .error (.executionError ("Agent not properly initialized or deployed")) := by
  unfold execute
  rw [if_pos h]
  exact ⟨rfl, rfl⟩

/-- C2: Execute precondition atomicity — on an agent missing the contract
    handle or the signer, `execute` rejects with an ExecutionError for every
    action and every collaborator outcome, and returns the agent completely
    unchanged; in particular metrics.totalActions is unchanged and no
    observation is recorded. -/
theorem execute_precondition (a : SomniaAgent) (action : Action)
    (outcome : Except String TxReceipt) (now : ℕ)
    (h : a.contract = none ∨ a.signer = none) :
    (execute a action outcome now).1 = a ∧
    (execute a action outcome now).1.state.metrics.totalActions
      = a.state.metrics.totalActions ∧
    (execute a action outcome now).2
      = .error (.executionError ("Agent not properly initialized or deployed")) := by
  obtain ⟨h1, h2⟩ := execute_missing_requirement a action outcome now h
  exact ⟨h1, by rw [h1], h2⟩

/-- Witness for C2: a freshly constructed agent (no contract, no signer)
    rejects and keeps its state. -/
theorem execute_precondition_witness :
    (bareAgent.contract = none ∨ bareAgent.signer = none) ∧
    ((execute bareAgent demoAction (.error ("network down")) 0).1 = bareAgent ∧
     (execute bareAgent demoAction (.error ("network down")) 0).1.state.metrics.totalActions
       = bareAgent.state.metrics.totalActions ∧
     (execute bareAgent demoAction (.error ("network down")) 0).2
       = .error (.executionError ("Agent not properly initialized or deployed"))) :=
  ⟨Or.inl rfl,
    execute_precondition bareAgent demoAction (.error ("network down")) 0 (Or.inl rfl)⟩

/-- C3 (code bug): handler isolation fails in the code — the event
    dispatcher the agent delegates to invokes listeners in order with no
    exception handling, so with two listeners registered for the same
    event, the first of which throws synchronously, emitting one event
    invokes the second listener zero times, not exactly once: the loop
    aborts and the first listener's error propagates. -/
theorem handler_isolation_failure :
    emitDispatch [throwingListener, benignListener] demoEvent
      = ([true, false], some ("boom")) := rfl

/-- C5 (counterexample): the `error` status is not terminal under all four
    lifecycle operations — `start()` on an agent whose status is `error`
    passes its only guard (status is not `running`) and sets the status to
    `running`. -/
theorem error_terminal_counterexample :
    errAgent.state.status = .error ∧
    (start errAgent 0).state.status = .running ∧
    (start errAgent 0).state.status ≠ .error := by
  refine ⟨rfl, rfl, by decide⟩

/-- C5 (amended): on an agent whose status is `error`, `stop()`, `pause()`
    and `resume()` are no-ops that leave the status `error`, but `start()`
    transitions the status to `running`. -/
theorem error_terminal_amended (a : SomniaAgent) (now : ℕ)
    (h : a.state.status = .error) :
    (stop a now).state.status = .error ∧
    (pause a now).state.status = .error ∧
    (resume a now).state.status = .error ∧
    (start a now).state.status = .running := by
  refine ⟨?_, ?_, ?_, ?_⟩ <;> simp [stop, pause, resume, start, h, emitEvent]

/-- Witness for C5 (amended) at a concrete agent in the `error` state. -/
theorem error_terminal_amended_witness :
    errAgent.state.status = .error ∧
    ((stop errAgent 5).state.status = .error ∧
     (pause errAgent 5).state.status = .error ∧
     (resume errAgent 5).state.status = .error ∧
     (start errAgent 5).state.status = .running) :=
  ⟨rfl, error_terminal_amended errAgent 5 rfl⟩

/-- C8: setState replaces top-level keys wholesale — for every agent,
    setState with data x=1 followed by setState with data y=2 leaves the
    data bag exactly y=2: the second patch's `data` key replaces the
    previous object entirely instead of merging with it. -/
theorem setState_data_replace (a : SomniaAgent) (now1 now2 : ℕ) :
    (setState (setState a { data := some [("x", .num 1)] } now1)
        { data := some [("y", .num 2)] } now2).state.data = [("y", .num 2)] := by
  simp [setState, mergeState, emitEvent]

/-- C9: setState bypasses the lifecycle state machine — for every current
    state (including `error`) and every target status (including `running`),
    setState with that status installs it unconditionally; the transition
    guards live only in the lifecycle methods. -/
theorem setState_bypasses_lifecycle (a : SomniaAgent) (t : AgentStatus) (now : ℕ) :
    (setState a { status := some t } now).state.status = t := by
  simp [setState, mergeState, emitEvent]

/-- C4 (counterexample): getState's copy is not defensive for nested
    fields — the spread copy shares the nested metrics object, so writing
    through the copy's metrics reference changes what the agent's own state
    subsequently reads: with the concrete heap, mutating the copy's metrics
    turns the value read through the agent's reference from the initial
    metrics into the mutated metrics. -/
theorem getState_defensive_copy_counterexample :
    (shallowCopyState demoStateObj).metricsRef = demoStateObj.metricsRef ∧
    readMetrics demoHeap demoStateObj.metricsRef = initialMetrics ∧
    readMetrics
        (writeMetrics demoHeap (shallowCopyState demoStateObj).metricsRef mutatedMetrics)
        demoStateObj.metricsRef = mutatedMetrics ∧
    mutatedMetrics ≠ initialMetrics := by
  refine ⟨rfl, rfl, rfl, by decide⟩

/-- C4 (amended): getState returns a shallow copy — the returned object is
    fresh, its top-level fields carry the same values, and its nested
    metrics and data objects are shared by reference with the internal
    state, so mutating them through the returned value is visible to a
    subsequent getState; only top-level fields of the copy are independent
    of the agent. -/
theorem getState_shallow_copy (s : AgentStateObj) (h : JSHeap) (v : AgentMetrics)
    (d : List (String × JSValue)) :
    (shallowCopyState s).status = s.status ∧
    (shallowCopyState s).lastAction = s.lastAction ∧
    (shallowCopyState s).contractAddress = s.contractAddress ∧
    (shallowCopyState s).metricsRef = s.metricsRef ∧
    (shallowCopyState s).dataRef = s.dataRef ∧
    readMetrics (writeMetrics h (shallowCopyState s).metricsRef v) s.metricsRef = v ∧
    readData (writeData h (shallowCopyState s).dataRef d) s.dataRef = d := by
  refine ⟨rfl, rfl, rfl, rfl, rfl, ?_, ?_⟩ <;>
    simp [readMetrics, writeMetrics, readData, writeData, shallowCopyState]

/-- C6: Simulator result computation — every completed run reports
    totalEvents equal to the length of the event log, totalActions equal to
    the length of the action log, successfulActions equal to the floor of
    0.9 times totalActions, failedActions the remainder, and successRate
    equal to successfulActions over totalActions when there are actions and
    0 otherwise; a full run of the normal-trading scenario yields
    totalEvents 3, totalActions 3, successRate 2/3. -/
theorem simulator_result_computation (scenario : String) (rand : ℕ → Bool × ℚ)
    (now duration : ℕ) (art agu : ℚ) :
    (runSimulation scenario rand now duration art agu).totalEvents
      = (runSimulation scenario rand now duration art agu).events.length ∧
    (runSimulation scenario rand now duration art agu).totalActions
      = (runSimulation scenario rand now duration art agu).actions.length ∧
    (runSimulation scenario rand now duration art agu).successfulActions
      = (runSimulation scenario rand now duration art agu).totalActions * 9 / 10 ∧
    (runSimulation scenario rand now duration art agu).failedActions
      = (runSimulation scenario rand now duration art agu).totalActions
        - (runSimulation scenario rand now duration art agu).successfulActions ∧
    (runSimulation scenario rand now duration art agu).successRate
      = (if 0 < (runSimulation scenario rand now duration art agu).totalActions then
          ((runSimulation scenario rand now duration art agu).successfulActions : ℚ)
            / ((runSimulation scenario rand now duration art agu).totalActions : ℚ)
         else 0) ∧
    (runSimulation ("normal_trading") rand now duration art agu).totalEvents = 3 ∧
    (runSimulation ("normal_trading") rand now duration art agu).totalActions = 3 ∧
    (runSimulation ("normal_trading") rand now duration art agu).successRate = 2 / 3 := by
  refine ⟨rfl, rfl, rfl, rfl, rfl, ?_, ?_, ?_⟩ <;>
    simp [runSimulation, calculateResults, getScenarioEvents, normalTradingEvents,
      runEventLoop, List.lookup]

/-- C7: Execute failure path — on an agent with a contract handle and a
    signer, a failed submission or confirmation makes `execute` record
    exactly one failure observation with gasUsed 0 (totalActions increases
    by 1), append one `agent:error` event to the emission log, and return
    the ExecutionError wrapping the underlying cause instead of a normal
    result. -/
theorem execute_failure_path (a : SomniaAgent) (action : Action) (msg : String)
    (now : ℕ) (hc : a.contract ≠ none) (hs : a.signer ≠ none) :
    (execute a action (.error msg) now).1.state.metrics
      = updateMetrics a.state.metrics false 0 now ∧
    (execute a action (.error msg) now).1.state.metrics.totalActions
      = a.state.metrics.totalActions + 1 ∧
    (execute a action (.error msg) now).1.emitted
      = a.emitted ++
          [{ type := AgentEvents.ERROR, timestamp := now,
             data := .errorData action msg, source := a.config.name }] ∧
    (execute a action (.error msg) now).2
      = .error (.executionError ("Action execution failed: " ++ msg)) := by
  have hcond : ¬(a.contract = none ∨ a.signer = none) := by
    intro hor
    rcases hor with h | h
    · exact hc h
    · exact hs h
  unfold execute
  rw [if_neg hcond]
  exact ⟨rfl, rfl, rfl, rfl⟩

/-- Witness for C7 at a concrete ready agent and a concrete underlying
    failure. -/
theorem execute_failure_path_witness :
    (readyAgent.contract ≠ none ∧ readyAgent.signer ≠ none) ∧
    ((execute readyAgent demoAction (.error ("tx reverted")) 7).1.state.metrics
       = updateMetrics readyAgent.state.metrics false 0 7 ∧
     (execute readyAgent demoAction (.error ("tx reverted")) 7).1.state.metrics.totalActions
       = readyAgent.state.metrics.totalActions + 1 ∧
     (execute readyAgent demoAction (.error ("tx reverted")) 7).1.emitted
       = readyAgent.emitted ++
           [{ type := AgentEvents.ERROR, timestamp := 7,
              data := .errorData demoAction ("tx reverted"),
              source := readyAgent.config.name }] ∧
     (execute readyAgent demoAction (.error ("tx reverted")) 7).2
       = .error (.executionError ("Action execution failed: " ++ "tx reverted"))) :=
  ⟨⟨by decide, by decide⟩,
    execute_failure_path readyAgent demoAction ("tx reverted") 7 (by decide) (by decide)⟩

/-- C10: a successful `deploy` stores the generated address on both config
    and state and returns the deployment result, but never creates a
    contract handle; hence on an agent with a signer and no attached
    contract, `execute` immediately after the successful deploy still
    rejects with an ExecutionError (for every action and outcome) and
    leaves the deployed agent unchanged. -/
theorem deploy_not_executable (a : SomniaAgent) (addr key : String)
    (network : Network) (action : Action) (outcome : Except String TxReceipt)
    (now1 now2 : ℕ) (hs : a.signer = some key) (hc : a.contract = none)
    (hn : getNetwork a.config = .ok network) :
    (deploy a addr now1).2
      = .ok { contractAddress := addr
              txHash := "0x" ++ String.mk (List.replicate 64 '0')
              blockNumber := 0
              gasUsed := 0
              network := network
              timestamp := now1 } ∧
    (deploy a addr now1).1.config.contractAddress = some addr ∧
    (deploy a addr now1).1.state.contractAddress = some addr ∧
    (deploy a addr now1).1.contract = none ∧
    (execute (deploy a addr now1).1 action outcome now2).2
      = .error (.executionError ("Agent not properly initialized or deployed")) ∧
    (execute (deploy a addr now1).1 action outcome now2).1 = (deploy a addr now1).1 := by
  have hd : deploy a addr now1
      = (emitEvent
          { a with
            config := { a.config with contractAddress := some addr }
            state := { a.state with contractAddress := some addr } }
          AgentEvents.DEPLOYED
          (.deployedData
            { contractAddress := addr
              txHash := "0x" ++ String.mk (List.replicate 64 '0')
              blockNumber := 0
              gasUsed := 0
              network := network
              timestamp := now1 }) now1,
        .ok { contractAddress := addr
              txHash := "0x" ++ String.mk (List.replicate 64 '0')
              blockNumber := 0
              gasUsed := 0
              network := network
              timestamp := now1 }) := by
    unfold deploy
    rw [hs, hn]
  have hcontract : (deploy a addr now1).1.contract = none := by
    rw [hd]
    simpa [emitEvent] using hc
  have hpre := execute_missing_requirement (deploy a addr now1).1 action outcome now2
    (Or.inl hcontract)
  refine ⟨by rw [hd], ?_, ?_, hcontract, hpre.2, hpre.1⟩
  · rw [hd]; simp [emitEvent]
  · rw [hd]; simp [emitEvent]

/-- Witness for C10 at a concrete agent with a signer and no contract. -/
theorem deploy_not_executable_witness :
    (signerOnlyAgent.signer = some ("0xdeadbeef") ∧
     signerOnlyAgent.contract = none ∧
     getNetwork signerOnlyAgent.config = .ok SomniaTestnet) ∧
    ((deploy signerOnlyAgent ("0xabc") 1).2
       = .ok { contractAddress := "0xabc"
               txHash := "0x" ++ String.mk (List.replicate 64 '0')
               blockNumber := 0
               gasUsed := 0
               network := SomniaTestnet
               timestamp := 1 } ∧
     (deploy signerOnlyAgent ("0xabc") 1).1.config.contractAddress = some ("0xabc") ∧
     (deploy signerOnlyAgent ("0xabc") 1).1.state.contractAddress = some ("0xabc") ∧
     (deploy signerOnlyAgent ("0xabc") 1).1.contract = none ∧
     (execute (deploy signerOnlyAgent ("0xabc") 1).1 demoAction (.ok { hash := "0xh", gasUsed := 21000 }) 2).2
       = .error (.executionError ("Agent not properly initialized or deployed")) ∧
     (execute (deploy signerOnlyAgent ("0xabc") 1).1 demoAction (.ok { hash := "0xh", gasUsed := 21000 }) 2).1
       = (deploy signerOnlyAgent ("0xabc") 1).1) :=
  ⟨⟨rfl, rfl, rfl⟩,
    deploy_not_executable signerOnlyAgent ("0xabc") ("0xdeadbeef") SomniaTestnet
      demoAction (.ok { hash := "0xh", gasUsed := 21000 }) 1 2 rfl rfl rfl⟩

end SomniaSDK
